import Mathlib

set_option maxRecDepth 10000

/-!
Shallow embedding of the three Anchor programs of the erc8004-solana
repository (identity-registry, reputation-registry, validation-registry)
and proofs about the claims of their specification.

Modelling conventions:
* Solana `Pubkey` values are represented by their numeric value (`Nat`).
* Rust `u64` fields are `Nat` values together with explicit
  `checked_add`/`checked_sub` operations that fail above `u64::MAX`,
  exactly as the source uses `checked_add`/`checked_sub`.
* Rust `i64` timestamps are `Int`; `Clock::get()?.unix_timestamp` becomes
  an explicit `now : Int` argument.
* Byte strings (`String` contents, `Vec<u8>`, `[u8; 32]`) are `List Nat`
  of byte values; `len()` is `List.length`.
* Each instruction handler is translated as a pure function of the
  resolved account values (the account constraints of the corresponding
  `#[derive(Accounts)]` struct are the leading checks) returning
  `Except` of the program's error enum; an `.error` result models the
  aborted (all-or-nothing) transaction, so no state is written.
* Account creation / PDA resolution performed by the runtime is modelled
  in the `...Step` state-machine functions on association lists keyed by
  the PDA seed tuples.
-/

/-- Solana public key, represented by its numeric value. -/
abbrev Pubkey := Nat

/-- Byte string: contents of a Rust `String` or `Vec<u8>`. -/
abbrev ByteStr := List Nat

/-- A `[u8; 32]` value (tags, hashes), kept opaque as a byte list. -/
abbrev Bytes32 := List Nat

/-- Largest value of a Rust `u64`. -/
def U64MAX : Nat := 2 ^ 64 - 1

/-- Rust `u64::checked_add`: `none` exactly when the sum exceeds `u64::MAX`. -/
def checkedAddU64 (a b : Nat) : Option Nat :=
  if a + b ≤ U64MAX then some (a + b) else none

/-- Rust `u64::checked_sub`: `none` exactly when the subtraction underflows. -/
def checkedSubU64 (a b : Nat) : Option Nat :=
  if b ≤ a then some (a - b) else none

/-- Look up a key in an association list (models reading the account stored
at a given PDA address). -/
def getAssoc {κ α : Type} [DecidableEq κ] : List (κ × α) → κ → Option α
  | [], _ => none
  | (k1, v1) :: rest, k => if k1 = k then some v1 else getAssoc rest k

/-- Write a key in an association list (models writing the account stored at
a given PDA address). -/
def setAssoc {κ α : Type} [DecidableEq κ] : List (κ × α) → κ → α → List (κ × α)
  | [], k, v => [(k, v)]
  | (k1, v1) :: rest, k, v =>
    if k1 = k then (k, v) :: rest else (k1, v1) :: setAssoc rest k v

theorem getAssoc_setAssoc_same {κ α : Type} [DecidableEq κ]
    (m : List (κ × α)) (k : κ) (v : α) : getAssoc (setAssoc m k v) k = some v := by
  induction m with
  | nil => simp [setAssoc, getAssoc]
  | cons hd tl ih =>
    obtain ⟨k1, v1⟩ := hd
    by_cases h : k1 = k
    · simp [setAssoc, getAssoc, h]
    · simp [setAssoc, getAssoc, h, ih]

theorem checkedAddU64_some (a b : Nat) (h : a + b ≤ U64MAX) :
    checkedAddU64 a b = some (a + b) := by
  simp [checkedAddU64, h]

theorem checkedAddU64_some_inv (a b c : Nat) (h : checkedAddU64 a b = some c) :
    c = a + b := by
  unfold checkedAddU64 at h
  split at h
  · exact (Option.some.injEq _ _ ▸ h).symm
  · cases h

/-! ## Reputation registry: state types (`programs/reputation-registry/src/state.rs`) -/

/-- One feedback record (`FeedbackAccount`). -/
structure FeedbackAccount where
  agent_id : Nat
  client_address : Pubkey
  feedback_index : Nat
  score : Nat
  tag1 : Bytes32
  tag2 : Bytes32
  file_uri : ByteStr
  file_hash : Bytes32
  is_revoked : Bool
  created_at : Int
  bump : Nat

def FeedbackAccount.MAX_URI_LENGTH : Nat := 200

/-- Per-(agent, client) feedback sequence (`ClientIndexAccount`). -/
structure ClientIndexAccount where
  agent_id : Nat
  client_address : Pubkey
  last_index : Nat
  bump : Nat

/-- Cached per-agent aggregates (`AgentReputationMetadata`). -/
structure AgentReputationMetadata where
  agent_id : Nat
  total_feedbacks : Nat
  total_score_sum : Nat
  average_score : Nat
  last_updated : Int
  bump : Nat

/-- Error enum of the reputation registry (`error.rs`), extended by the two
runtime-level account-resolution failures that Anchor raises before the
instruction body runs: `AccountAlreadyInUse` for an `init` account that
already exists and `AccountNotInitialized` for a required account that does
not exist. -/
inductive ReputationError where
  | InvalidScore
  | UriTooLong
  | ResponseUriTooLong
  | Unauthorized
  | AlreadyRevoked
  | Overflow
  | AgentNotFound
  | FeedbackNotFound
  | InvalidFeedbackIndex
  | ResponseNotFound
  | AccountAlreadyInUse
  | AccountNotInitialized
deriving DecidableEq

/-- Tail of `give_feedback` (lib.rs lines 93-138): increments the client
index with `checked_add`, creates the feedback record, and updates the
cached aggregates, re-initialising them whenever the stored
`agent_reputation.agent_id` is 0. -/
def give_feedback_rest (client : Pubkey) (agent_id score : Nat)
    (tag1 tag2 : Bytes32) (file_uri : ByteStr) (file_hash : Bytes32)
    (feedback_index : Nat) (now : Int) (ci1 : ClientIndexAccount)
    (agent_reputation : AgentReputationMetadata) :
    Except ReputationError (ClientIndexAccount × FeedbackAccount × AgentReputationMetadata) :=
  match checkedAddU64 ci1.last_index 1 with
  | none => .error .Overflow
  | some li =>
    let ci2 := { ci1 with last_index := li }
    let feedback : FeedbackAccount :=
      { agent_id := agent_id, client_address := client,
        feedback_index := feedback_index, score := score, tag1 := tag1,
        tag2 := tag2, file_uri := file_uri, file_hash := file_hash,
        is_revoked := false, created_at := now, bump := 0 }
    if agent_reputation.agent_id = 0 then
      .ok (ci2, feedback,
        { agent_id := agent_id, total_feedbacks := 1, total_score_sum := score,
          average_score := score, last_updated := now, bump := 0 })
    else
      match checkedAddU64 agent_reputation.total_feedbacks 1 with
      | none => .error .Overflow
      | some tf =>
        match checkedAddU64 agent_reputation.total_score_sum score with
        | none => .error .Overflow
        | some ts =>
          .ok (ci2, feedback,
            { agent_reputation with
              total_feedbacks := tf
              total_score_sum := ts
              average_score := ts / tf % 256
              last_updated := now })

/-- Instruction body of `give_feedback` (lib.rs lines 48-161), as a pure
function of the resolved accounts: `client` is the signer, `agent_stub_id`
the `agent_id` field of the identity-registry agent account passed in,
`client_index` and `agent_reputation` the values of the two
`init_if_needed` PDAs (zeroed when freshly created). Returns the updated
client index, the new feedback record, and the updated aggregates. -/
def give_feedback (client : Pubkey) (agent_stub_id : Nat)
    (client_index : ClientIndexAccount) (agent_reputation : AgentReputationMetadata)
    (agent_id score : Nat) (tag1 tag2 : Bytes32) (file_uri : ByteStr)
    (file_hash : Bytes32) (feedback_index : Nat) (now : Int) :
    Except ReputationError (ClientIndexAccount × FeedbackAccount × AgentReputationMetadata) :=
  if ¬ score ≤ 100 then .error .InvalidScore
  else if ¬ file_uri.length ≤ FeedbackAccount.MAX_URI_LENGTH then .error .UriTooLong
  else if ¬ agent_stub_id = agent_id then .error .AgentNotFound
  else if client_index.last_index = 0 ∧ client_index.agent_id = 0 then
    if feedback_index = 0 then
      give_feedback_rest client agent_id score tag1 tag2 file_uri file_hash
        feedback_index now
        { client_index with agent_id := agent_id, client_address := client }
        agent_reputation
    else .error .InvalidFeedbackIndex
  else if feedback_index = client_index.last_index then
    give_feedback_rest client agent_id score tag1 tag2 file_uri file_hash
      feedback_index now client_index agent_reputation
  else .error .InvalidFeedbackIndex

/-- Instruction body of `revoke_feedback` (lib.rs lines 180-236): author
check, already-revoked check, mark revoked, subtract the score from the
aggregates with `checked_sub`, recompute the average guarding division by
zero. -/
def revoke_feedback (client : Pubkey) (feedback : FeedbackAccount)
    (agent_reputation : AgentReputationMetadata) (now : Int) :
    Except ReputationError (FeedbackAccount × AgentReputationMetadata) :=
  if ¬ feedback.client_address = client then .error .Unauthorized
  else if feedback.is_revoked then .error .AlreadyRevoked
  else
    let fb := { feedback with is_revoked := true }
    match checkedSubU64 agent_reputation.total_feedbacks 1 with
    | none => .error .Overflow
    | some tf =>
      match checkedSubU64 agent_reputation.total_score_sum fb.score with
      | none => .error .Overflow
      | some ts =>
        .ok (fb,
          { agent_reputation with
            total_feedbacks := tf
            total_score_sum := ts
            average_score := if tf = 0 then 0 else ts / tf % 256
            last_updated := now })

/-- Reputation-registry state: accounts keyed by their PDA seed tuples
(`client_index` by (agent_id, client), `feedback` by (agent_id, client,
feedback_index), `agent_reputation` by agent_id). -/
structure RepState where
  client_indexes : List ((Nat × Pubkey) × ClientIndexAccount)
  feedbacks : List ((Nat × Pubkey × Nat) × FeedbackAccount)
  reputations : List (Nat × AgentReputationMetadata)

/-- Zero-initialised client index, as produced by `init_if_needed` for an
absent account. -/
def ClientIndexAccount.zeroed : ClientIndexAccount :=
  { agent_id := 0, client_address := 0, last_index := 0, bump := 0 }

/-- Zero-initialised aggregates, as produced by `init_if_needed` for an
absent account. -/
def AgentReputationMetadata.zeroed : AgentReputationMetadata :=
  { agent_id := 0, total_feedbacks := 0, total_score_sum := 0,
    average_score := 0, last_updated := 0, bump := 0 }

/-- Empty reputation-registry state. -/
def RepState.empty : RepState :=
  { client_indexes := [], feedbacks := [], reputations := [] }

/-- One `give_feedback` transaction against the reputation-registry state:
resolves the accounts named by the `GiveFeedback` struct (the feedback PDA
is `init`, so the transaction aborts if it already exists; the client index
and aggregates are `init_if_needed`, zeroed when absent), runs the body,
and commits the writes on success. -/
def giveFeedbackStep (s : RepState) (client : Pubkey) (agent_stub_id : Nat)
    (agent_id score : Nat) (tag1 tag2 : Bytes32) (file_uri : ByteStr)
    (file_hash : Bytes32) (feedback_index : Nat) (now : Int) :
    Except ReputationError RepState :=
  if (getAssoc s.feedbacks (agent_id, client, feedback_index)).isSome then
    .error .AccountAlreadyInUse
  else
    let ci := (getAssoc s.client_indexes (agent_id, client)).getD ClientIndexAccount.zeroed
    let rep := (getAssoc s.reputations agent_id).getD AgentReputationMetadata.zeroed
    match give_feedback client agent_stub_id ci rep agent_id score tag1 tag2
        file_uri file_hash feedback_index now with
    | .error e => .error e
    | .ok (ci2, fb, rep2) =>
      .ok { client_indexes := setAssoc s.client_indexes (agent_id, client) ci2
            feedbacks := setAssoc s.feedbacks (agent_id, client, feedback_index) fb
            reputations := setAssoc s.reputations agent_id rep2 }

/-- One `revoke_feedback` transaction: resolves the feedback PDA (seeded by
the calling client) and the aggregates PDA, both of which must exist, runs
the body, and commits the writes on success. -/
def revokeFeedbackStep (s : RepState) (client : Pubkey)
    (agent_id feedback_index : Nat) (now : Int) :
    Except ReputationError RepState :=
  match getAssoc s.feedbacks (agent_id, client, feedback_index) with
  | none => .error .AccountNotInitialized
  | some fb =>
    match getAssoc s.reputations agent_id with
    | none => .error .AccountNotInitialized
    | some rep =>
      match revoke_feedback client fb rep now with
      | .error e => .error e
      | .ok (fb2, rep2) =>
        .ok { s with
              feedbacks := setAssoc s.feedbacks (agent_id, client, feedback_index) fb2
              reputations := setAssoc s.reputations agent_id rep2 }

/-- Number of currently non-revoked feedback records for an agent. -/
def nonRevokedCount (s : RepState) (agent_id : Nat) : Nat :=
  (s.feedbacks.filter (fun p => p.1.1 == agent_id && !p.2.is_revoked)).length

/-- Sum of the scores of the currently non-revoked feedback records for an
agent. -/
def nonRevokedScoreSum (s : RepState) (agent_id : Nat) : Nat :=
  ((s.feedbacks.filter (fun p => p.1.1 == agent_id && !p.2.is_revoked)).map
    (fun p => p.2.score)).sum

/-! ## Identity registry: state types (`programs/identity-registry/src/state.rs`) -/

/-- Key-value metadata entry (`MetadataEntry`). -/
structure MetadataEntry where
  key : ByteStr
  value : ByteStr
deriving DecidableEq

def MetadataEntry.MAX_KEY_LENGTH : Nat := 32

def MetadataEntry.MAX_VALUE_LENGTH : Nat := 256

/-- Global identity-registry configuration (`RegistryConfig`). -/
structure RegistryConfig where
  authority : Pubkey
  next_agent_id : Nat
  total_agents : Nat
  collection_mint : Pubkey
  bump : Nat

/-- Agent record (`AgentAccount`). -/
structure AgentAccount where
  agent_id : Nat
  owner : Pubkey
  agent_mint : Pubkey
  token_uri : ByteStr
  metadata : List MetadataEntry
  created_at : Int
  bump : Nat

def AgentAccount.MAX_METADATA_ENTRIES : Nat := 10

def AgentAccount.MAX_URI_LENGTH : Nat := 200

/-- First metadata entry whose key equals `key`
(`AgentAccount::find_metadata`, backed by `Iterator::find`). -/
def AgentAccount.find_metadata (a : AgentAccount) (key : ByteStr) : Option MetadataEntry :=
  a.metadata.find? (fun e => e.key == key)

/-- Error enum of the identity registry (`error.rs`). -/
inductive IdentityError where
  | UriTooLong
  | KeyTooLong
  | ValueTooLong
  | MetadataLimitReached
  | Unauthorized
  | Overflow
  | MetadataNotFound
  | InvalidTokenAccount
  | ExtensionNotFound
  | InvalidExtensionIndex
  | InvalidCollectionMint
  | InvalidNftSupply
  | InvalidNftDecimals
  | TransferToSelf
deriving DecidableEq

/-- SPL token account as seen by the programs: its address (`key`), its
`mint`, its `owner`, and its `amount`. -/
structure TokenAccount where
  key : Pubkey
  mint : Pubkey
  owner : Pubkey
  amount : Nat

/-- Per-entry validation loop of `register_internal` (lib.rs lines
161-170): each key at most 32 bytes, each value at most 256 bytes. -/
def validateEntries : List MetadataEntry → Except IdentityError Unit
  | [] => .ok ()
  | e :: rest =>
    if ¬ e.key.length ≤ MetadataEntry.MAX_KEY_LENGTH then .error .KeyTooLong
    else if ¬ e.value.length ≤ MetadataEntry.MAX_VALUE_LENGTH then .error .ValueTooLong
    else validateEntries rest

/-- Config produced by the identity registry's bootstrap instruction
(lib.rs lines 30-37): `next_agent_id = 0`, `total_agents = 0`. The
collection NFT minting is an external Metaplex/SPL side effect. -/
def initRegistryConfig (authority collection_mint : Pubkey) : RegistryConfig :=
  { authority := authority, next_agent_id := 0, total_agents := 0,
    collection_mint := collection_mint, bump := 0 }

/-- Instruction body of `register_internal` (lib.rs lines 144-281): length
validations, sequential id assignment with checked counter increments, and
creation of the agent record. The `mint_to` and Metaplex CPIs are calls to
external collaborator programs and carry no registry state. -/
def register_internal (config : RegistryConfig) (owner agent_mint : Pubkey)
    (token_uri : ByteStr) (metadata : List MetadataEntry) (now : Int) :
    Except IdentityError (RegistryConfig × AgentAccount) :=
  if ¬ token_uri.length ≤ AgentAccount.MAX_URI_LENGTH then .error .UriTooLong
  else if ¬ metadata.length ≤ AgentAccount.MAX_METADATA_ENTRIES then .error .MetadataLimitReached
  else
    match validateEntries metadata with
    | .error e => .error e
    | .ok _ =>
      let agent_id := config.next_agent_id
      match checkedAddU64 config.next_agent_id 1 with
      | none => .error .Overflow
      | some na =>
        match checkedAddU64 config.total_agents 1 with
        | none => .error .Overflow
        | some ta =>
          .ok ({ config with next_agent_id := na, total_agents := ta },
            { agent_id := agent_id, owner := owner, agent_mint := agent_mint,
              token_uri := token_uri, metadata := metadata, created_at := now,
              bump := 0 })

/-- `register_empty` (lib.rs lines 88-90): empty URI, no metadata. -/
def register_empty (config : RegistryConfig) (owner agent_mint : Pubkey) (now : Int) :
    Except IdentityError (RegistryConfig × AgentAccount) :=
  register_internal config owner agent_mint [] [] now

/-- `register` (lib.rs lines 106-108): given URI, no metadata. -/
def register (config : RegistryConfig) (owner agent_mint : Pubkey)
    (token_uri : ByteStr) (now : Int) :
    Except IdentityError (RegistryConfig × AgentAccount) :=
  register_internal config owner agent_mint token_uri [] now

/-- `register_with_metadata` (lib.rs lines 130-136): given URI and initial
metadata entries. -/
def register_with_metadata (config : RegistryConfig) (owner agent_mint : Pubkey)
    (token_uri : ByteStr) (metadata : List MetadataEntry) (now : Int) :
    Except IdentityError (RegistryConfig × AgentAccount) :=
  register_internal config owner agent_mint token_uri metadata now

/-- One registration request: which of the three entry points is called and
with which arguments. -/
inductive RegReq where
  | empty (owner agent_mint : Pubkey) (now : Int)
  | withUri (owner agent_mint : Pubkey) (token_uri : ByteStr) (now : Int)
  | withMeta (owner agent_mint : Pubkey) (token_uri : ByteStr)
      (metadata : List MetadataEntry) (now : Int)

/-- Dispatch one registration request to the corresponding entry point. -/
def applyReg (config : RegistryConfig) : RegReq →
    Except IdentityError (RegistryConfig × AgentAccount)
  | .empty o m n => register_empty config o m n
  | .withUri o m u n => register config o m u n
  | .withMeta o m u md n => register_with_metadata config o m u md n

/-- Run a sequence of registration requests; `some (config, ids)` when every
request succeeds, where `ids` are the assigned agent ids in call order. -/
def runRegisters (config : RegistryConfig) : List RegReq →
    Option (RegistryConfig × List Nat)
  | [] => some (config, [])
  | r :: rs =>
    match applyReg config r with
    | .error _ => none
    | .ok (c2, agent) =>
      match runRegisters c2 rs with
      | none => none
      | some (c3, ids) => some (c3, agent.agent_id :: ids)

/-- Replace the value of the first entry whose key equals `key` (the write
through `AgentAccount::find_metadata_mut`, backed by `Iterator::find` over
`iter_mut`, in `set_metadata`). -/
def setFirstValue : List MetadataEntry → ByteStr → ByteStr → List MetadataEntry
  | [], _, _ => []
  | e :: rest, key, value =>
    if e.key == key then { e with value := value } :: rest
    else e :: setFirstValue rest key value

/-- Instruction body of `set_metadata` (lib.rs lines 322-373) together with
the `SetMetadata` account constraint `owner.key() == agent_account.owner`
(checked by Anchor before the body runs): length validations, then update
of the first matching entry or append of a new one under the 10-entry cap. -/
def set_metadata (owner_signer : Pubkey) (agent : AgentAccount)
    (key value : ByteStr) : Except IdentityError AgentAccount :=
  if ¬ owner_signer = agent.owner then .error .Unauthorized
  else if ¬ key.length ≤ MetadataEntry.MAX_KEY_LENGTH then .error .KeyTooLong
  else if ¬ value.length ≤ MetadataEntry.MAX_VALUE_LENGTH then .error .ValueTooLong
  else if (agent.find_metadata key).isSome then
    .ok { agent with metadata := setFirstValue agent.metadata key value }
  else if agent.metadata.length < AgentAccount.MAX_METADATA_ENTRIES then
    .ok { agent with metadata := agent.metadata ++ [{ key := key, value := value }] }
  else .error .MetadataLimitReached

/-- Instruction body of `get_metadata` (lib.rs lines 293-302): value of the
first entry whose key matches, empty bytes when the key is absent. -/
def get_metadata (agent : AgentAccount) (key : ByteStr) : ByteStr :=
  match agent.find_metadata key with
  | some e => e.value
  | none => []

/-- Instruction body of `sync_owner` (lib.rs lines 431-463) together with
the `SyncOwner` account constraint `token_account.mint ==
agent_account.agent_mint`. The `SyncOwner` accounts struct has no signer,
so there is no caller argument: any transaction presenting the accounts may
run it. On success the cached owner is overwritten with the token account's
owner and no other agent field changes. -/
def sync_owner (agent : AgentAccount) (token_account : TokenAccount) :
    Except IdentityError AgentAccount :=
  if ¬ token_account.mint = agent.agent_mint then .error .InvalidTokenAccount
  else if ¬ token_account.amount = 1 then .error .InvalidTokenAccount
  else .ok { agent with owner := token_account.owner }

/-- Instruction body of `transfer_agent` (lib.rs lines 583-625) together
with the `TransferAgent` account constraints in declaration order
(lib.rs lines 886-913). The self-transfer check compares the two token
ACCOUNT ADDRESSES (`from_token_account.key() != to_token_account.key()`).
The SPL `token::transfer` CPI is a call to the external token program. -/
def transfer_agent (owner_signer : Pubkey) (agent : AgentAccount)
    (from_ta to_ta : TokenAccount) : Except IdentityError AgentAccount :=
  if ¬ from_ta.mint = agent.agent_mint then .error .InvalidTokenAccount
  else if ¬ from_ta.owner = owner_signer then .error .Unauthorized
  else if ¬ from_ta.amount = 1 then .error .InvalidTokenAccount
  else if ¬ to_ta.mint = agent.agent_mint then .error .InvalidTokenAccount
  else if from_ta.key = to_ta.key then .error .TransferToSelf
  else .ok { agent with owner := to_ta.owner }

/-! ## Validation registry (`programs/validation-registry/src`) -/

/-- Global validation-registry configuration (`ValidationConfig`). -/
structure ValidationConfig where
  authority : Pubkey
  identity_registry : Pubkey
  total_requests : Nat
  total_responses : Nat
  bump : Nat

/-- One validation case (`ValidationRequest`). -/
structure ValidationRequest where
  agent_id : Nat
  validator_address : Pubkey
  nonce : Nat
  request_hash : Bytes32
  response_hash : Bytes32
  response : Nat
  created_at : Int
  responded_at : Int
  bump : Nat

def ValidationRequest.MAX_URI_LENGTH : Nat := 200

/-- Error enum of the validation registry (`error.rs`). -/
inductive ValidationError where
  | RequestUriTooLong
  | ResponseUriTooLong
  | InvalidResponse
  | UnauthorizedValidator
  | UnauthorizedRequester
  | AgentNotFound
  | RequestNotFound
  | Overflow
  | InvalidNonce
  | RequestHashMismatch
deriving DecidableEq

/-- Little-endian byte-list decoding (`u64::from_le_bytes` and the numeric
value of a 32-byte `Pubkey`). -/
def leBytesToNat : List Nat → Nat
  | [] => 0
  | b :: rest => b + 256 * leBytesToNat rest

/-- Bytes 8..16 of the raw identity-registry agent account: the stored
`agent_id` read by `request_validation` (lib.rs lines 67-71). -/
def storedAgentId (agent_data : List Nat) : Nat :=
  leBytesToNat ((agent_data.drop 8).take 8)

/-- Bytes 16..48 of the raw identity-registry agent account: the stored
`owner` read by `request_validation` (lib.rs lines 72-73). -/
def storedOwnerBytes (agent_data : List Nat) : List Nat :=
  (agent_data.drop 16).take 32

/-- `Pubkey::try_from` on a byte slice: succeeds exactly on 32 bytes. -/
def pubkeyTryFrom (bs : List Nat) : Option Pubkey :=
  if bs.length = 32 then some (leBytesToNat bs) else none

/-- Instruction body of `request_validation` (lib.rs lines 46-118) together
with the `RequestValidation` account constraint `agent_account.owner ==
&config.identity_registry` (the program owning the raw agent account,
passed here as `agent_owner_program`). `agent_data` is the raw byte content
of the identity-registry agent account that the body deserialises by hand. -/
def request_validation (config : ValidationConfig) (requester : Pubkey)
    (agent_owner_program : Pubkey) (agent_data : List Nat) (agent_id : Nat)
    (validator_address : Pubkey) (nonce : Nat) (request_uri : ByteStr)
    (request_hash : Bytes32) (now : Int) :
    Except ValidationError (ValidationConfig × ValidationRequest) :=
  if ¬ agent_owner_program = config.identity_registry then .error .AgentNotFound
  else if ¬ request_uri.length ≤ ValidationRequest.MAX_URI_LENGTH then
    .error .RequestUriTooLong
  else if ¬ 8 + 8 + 32 ≤ agent_data.length then .error .AgentNotFound
  else if ¬ ((agent_data.drop 8).take 8).length = 8 then .error .AgentNotFound
  else
    match pubkeyTryFrom (storedOwnerBytes agent_data) with
    | none => .error .AgentNotFound
    | some stored_owner =>
      if ¬ storedAgentId agent_data = agent_id then .error .AgentNotFound
      else if ¬ stored_owner = requester then .error .UnauthorizedRequester
      else
        match checkedAddU64 config.total_requests 1 with
        | none => .error .Overflow
        | some tr =>
          .ok ({ config with total_requests := tr },
            { agent_id := agent_id, validator_address := validator_address,
              nonce := nonce, request_hash := request_hash,
              response_hash := List.replicate 32 0, response := 0,
              created_at := now, responded_at := 0, bump := 0 })

/-- Instruction body of `respond_to_validation` (lib.rs lines 130-185)
together with the `RespondToValidation` account constraint
`validation_request.validator_address == validator.key()` (checked by
Anchor before the body runs). Increments `total_responses` only when
`responded_at` was 0 (first response). -/
def respond_to_validation (config : ValidationConfig) (validator : Pubkey)
    (validation_request : ValidationRequest) (response : Nat)
    (response_uri : ByteStr) (response_hash : Bytes32) (tag : Bytes32)
    (now : Int) : Except ValidationError (ValidationConfig × ValidationRequest) :=
  if ¬ validation_request.validator_address = validator then
    .error .UnauthorizedValidator
  else if ¬ response ≤ 100 then .error .InvalidResponse
  else if ¬ response_uri.length ≤ ValidationRequest.MAX_URI_LENGTH then
    .error .ResponseUriTooLong
  else
    let vr := { validation_request with
                response := response
                response_hash := response_hash
                responded_at := now }
    if validation_request.responded_at = 0 then
      match checkedAddU64 config.total_responses 1 with
      | none => .error .Overflow
      | some tr => .ok ({ config with total_responses := tr }, vr)
    else .ok (config, vr)

/-- `update_validation` (lib.rs lines 191-201): delegates to
`respond_to_validation` with the same accounts and arguments. -/
def update_validation (config : ValidationConfig) (validator : Pubkey)
    (validation_request : ValidationRequest) (response : Nat)
    (response_uri : ByteStr) (response_hash : Bytes32) (tag : Bytes32)
    (now : Int) : Except ValidationError (ValidationConfig × ValidationRequest) :=
  respond_to_validation config validator validation_request response
    response_uri response_hash tag now

/-! ## Claim C9: sync_owner -/

/-- C9: `sync_owner` has no caller-authorization precondition (the
`SyncOwner` accounts struct has no signer, so the embedded function takes
no caller argument): for any token account whose mint equals the agent's
`agent_mint`, amount 1 makes the call overwrite `agent.owner` with the
token account's owner leaving every other field unchanged, and any other
amount fails with `InvalidTokenAccount`. -/
theorem sync_owner_overwrites_owner (agent : AgentAccount)
    (token_account : TokenAccount)
    (hmint : token_account.mint = agent.agent_mint) :
    (token_account.amount = 1 →
      sync_owner agent token_account = .ok { agent with owner := token_account.owner }) ∧
    (¬ token_account.amount = 1 →
      sync_owner agent token_account = .error .InvalidTokenAccount) ∧
    (∀ a2, sync_owner agent token_account = .ok a2 →
      a2.agent_id = agent.agent_id ∧ a2.agent_mint = agent.agent_mint ∧
      a2.token_uri = agent.token_uri ∧ a2.metadata = agent.metadata ∧
      a2.created_at = agent.created_at ∧ a2.bump = agent.bump ∧
      a2.owner = token_account.owner) := by
  refine ⟨fun h1 => by simp [sync_owner, hmint, h1], fun h1 => by simp [sync_owner, hmint, h1], ?_⟩
  intro a2 h
  unfold sync_owner at h
  rw [if_neg (by simp [hmint])] at h
  split at h
  · exact absurd h (by simp)
  · simp only [Except.ok.injEq] at h
    subst h
    simp

def c9Agent : AgentAccount :=
  { agent_id := 3, owner := 7, agent_mint := 10, token_uri := [],
    metadata := [], created_at := 0, bump := 0 }

def c9Token : TokenAccount := { key := 50, mint := 10, owner := 8, amount := 1 }

/-- C9 witness: concrete run of `sync_owner` with no relation between the
token holder and the previous owner. -/
theorem sync_owner_overwrites_owner_witness :
    c9Token.mint = c9Agent.agent_mint ∧ c9Token.amount = 1 ∧
    sync_owner c9Agent c9Token = .ok { c9Agent with owner := c9Token.owner } :=
  ⟨rfl, rfl, (sync_owner_overwrites_owner c9Agent c9Token rfl).1 rfl⟩

/-! ## Claim C5: transfer_agent self-transfer check -/

def c5Agent : AgentAccount :=
  { agent_id := 0, owner := 9, agent_mint := 10, token_uri := [],
    metadata := [], created_at := 0, bump := 0 }

def c5From : TokenAccount := { key := 1, mint := 10, owner := 9, amount := 1 }

def c5To : TokenAccount := { key := 2, mint := 10, owner := 9, amount := 0 }

/-- C5 counterexample: a transfer between two DISTINCT token accounts held
by the SAME owner (owner 9 on both `c5From` and `c5To`) is not rejected
with `TransferToSelf`; it succeeds, because the code only compares the two
token account addresses. -/
theorem transfer_agent_same_owner_accepted :
    c5From.owner = c5To.owner ∧
    transfer_agent 9 c5Agent c5From c5To ≠ .error .TransferToSelf ∧
    transfer_agent 9 c5Agent c5From c5To = .ok { c5Agent with owner := c5To.owner } := by
  have h : transfer_agent 9 c5Agent c5From c5To = .ok { c5Agent with owner := c5To.owner } := rfl
  exact ⟨rfl, by simp [h], h⟩

/-- C5 amended: `transfer_agent` rejects with `TransferToSelf` exactly the
transfers whose source and destination are the SAME token account (equal
account addresses); when the two accounts are distinct it proceeds even if
both are held by the same owner, and sets the agent's cached owner to the
destination's owner. -/
theorem transfer_agent_self_transfer_check (owner_signer : Pubkey)
    (agent : AgentAccount) (from_ta to_ta : TokenAccount)
    (hm1 : from_ta.mint = agent.agent_mint) (how : from_ta.owner = owner_signer)
    (ham : from_ta.amount = 1) (hm2 : to_ta.mint = agent.agent_mint) :
    (from_ta.key = to_ta.key →
      transfer_agent owner_signer agent from_ta to_ta = .error .TransferToSelf) ∧
    (¬ from_ta.key = to_ta.key →
      transfer_agent owner_signer agent from_ta to_ta =
        .ok { agent with owner := to_ta.owner }) := by
  constructor <;> intro h <;> simp [transfer_agent, hm1, how, ham, hm2, h]

/-- C5 amended witness: same token account on both sides is rejected with
`TransferToSelf`; distinct accounts with the same holder go through. -/
theorem transfer_agent_self_transfer_check_witness :
    transfer_agent 9 c5Agent c5From c5From = .error .TransferToSelf ∧
    transfer_agent 9 c5Agent c5From c5To = .ok { c5Agent with owner := c5To.owner } :=
  ⟨(transfer_agent_self_transfer_check 9 c5Agent c5From c5From rfl rfl rfl rfl).1 rfl,
   (transfer_agent_self_transfer_check 9 c5Agent c5From c5To rfl rfl rfl rfl).2 (by decide)⟩

/-! ## Claim C8: set_metadata entry limit -/

/-- C8: with the owner calling and the key/value length validations
satisfied, `set_metadata` on an agent holding 10 entries fails with
`MetadataLimitReached` for a fresh key; for a key already present it always
succeeds (whatever the entry count), replacing the first matching entry's
value; below 10 entries a fresh key is appended. -/
theorem set_metadata_limit_behaviour (owner_signer : Pubkey)
    (agent : AgentAccount) (key value : ByteStr)
    (hown : owner_signer = agent.owner)
    (hk : key.length ≤ MetadataEntry.MAX_KEY_LENGTH)
    (hv : value.length ≤ MetadataEntry.MAX_VALUE_LENGTH) :
    (agent.metadata.length = AgentAccount.MAX_METADATA_ENTRIES →
      agent.find_metadata key = none →
      set_metadata owner_signer agent key value = .error .MetadataLimitReached) ∧
    ((agent.find_metadata key).isSome →
      set_metadata owner_signer agent key value =
        .ok { agent with metadata := setFirstValue agent.metadata key value }) ∧
    (agent.metadata.length < AgentAccount.MAX_METADATA_ENTRIES →
      agent.find_metadata key = none →
      set_metadata owner_signer agent key value =
        .ok { agent with metadata := agent.metadata ++ [{ key := key, value := value }] }) := by
  refine ⟨fun h1 h2 => ?_, fun h1 => ?_, fun h1 h2 => ?_⟩
  · simp [set_metadata, hown, hk, hv, h1, h2]
  · simp [set_metadata, hown, hk, hv, h1]
  · simp [set_metadata, hown, hk, hv, h1, h2]

def c8Agent : AgentAccount :=
  { agent_id := 1, owner := 4, agent_mint := 5, token_uri := [],
    metadata := (List.range 10).map (fun i => { key := [i], value := [i] }),
    created_at := 0, bump := 0 }

def c8Small : AgentAccount :=
  { agent_id := 2, owner := 4, agent_mint := 6, token_uri := [],
    metadata := [{ key := [0], value := [0] }], created_at := 0, bump := 0 }

/-- C8 witness: on a 10-entry agent the 11th distinct key fails while an
existing key still succeeds; on a 1-entry agent a fresh key is appended. -/
theorem set_metadata_limit_behaviour_witness :
    set_metadata 4 c8Agent [99] [1] = .error .MetadataLimitReached ∧
    set_metadata 4 c8Agent [3] [7] =
      .ok { c8Agent with metadata := setFirstValue c8Agent.metadata [3] [7] } ∧
    set_metadata 4 c8Small [1] [7] =
      .ok { c8Small with metadata := c8Small.metadata ++ [{ key := [1], value := [7] }] } :=
  ⟨(set_metadata_limit_behaviour 4 c8Agent [99] [1] rfl (by decide) (by decide)).1
      (by decide) (by decide),
   (set_metadata_limit_behaviour 4 c8Agent [3] [7] rfl (by decide) (by decide)).2.1
      (by decide),
   (set_metadata_limit_behaviour 4 c8Small [1] [7] rfl (by decide) (by decide)).2.2
      (by decide) (by decide)⟩

/-! ## Claim C10: duplicate metadata keys at registration -/

def c10Meta : List MetadataEntry :=
  [{ key := [1], value := [2] }, { key := [1], value := [3] }]

def c10Agent : AgentAccount :=
  { agent_id := 0, owner := 5, agent_mint := 6, token_uri := [],
    metadata := c10Meta, created_at := 0, bump := 0 }

/-- C10: `register_with_metadata` does not check key uniqueness, so a
metadata list with two entries under the same key registers successfully
and the agent keeps the duplicate keys; afterwards `get_metadata` returns
the first matching entry's value and `set_metadata` rewrites only the
first matching entry, leaving the later duplicate untouched. -/
theorem register_with_metadata_duplicate_keys :
    register_with_metadata (initRegistryConfig 0 0) 5 6 [] c10Meta 0 =
      .ok ({ initRegistryConfig 0 0 with next_agent_id := 1, total_agents := 1 },
           c10Agent) ∧
    (c10Agent.metadata.map (fun e => e.key)).count [1] = 2 ∧
    get_metadata c10Agent [1] = [2] ∧
    set_metadata 5 c10Agent [1] [9] =
      .ok { c10Agent with
            metadata := [{ key := [1], value := [9] }, { key := [1], value := [3] }] } :=
  ⟨rfl, rfl, rfl, rfl⟩

/-! ## Claim C2: give_feedback index sequencing -/

theorem give_feedback_rest_ok (client : Pubkey) (agent_id score : Nat)
    (tag1 tag2 : Bytes32) (file_uri : ByteStr) (file_hash : Bytes32)
    (feedback_index : Nat) (now : Int) (ci1 : ClientIndexAccount)
    (rep : AgentReputationMetadata) (hli : ci1.last_index < U64MAX)
    (htf : rep.total_feedbacks < U64MAX)
    (hts : rep.total_score_sum + score ≤ U64MAX) :
    ∃ fb rep2,
      give_feedback_rest client agent_id score tag1 tag2 file_uri file_hash
        feedback_index now ci1 rep =
        .ok ({ ci1 with last_index := ci1.last_index + 1 }, fb, rep2) := by
  unfold give_feedback_rest
  rw [checkedAddU64_some ci1.last_index 1 (by omega)]
  by_cases hrep : rep.agent_id = 0
  · simp only [hrep, if_pos]
    exact ⟨_, _, rfl⟩
  · rw [checkedAddU64_some rep.total_feedbacks 1 (by omega),
        checkedAddU64_some rep.total_score_sum score hts]
    simp only [hrep, if_neg]
    exact ⟨_, _, rfl⟩

/-- C2: under the preceding validations (score in range, URI length, agent
id match) and away from the u64 counter bounds, `give_feedback` fails with
`InvalidFeedbackIndex` exactly when the supplied `feedback_index` differs
from the client's current next index — `client_index.last_index`, which is
0 for a freshly zero-initialised (absent) client index — and on a match it
succeeds and advances `last_index` by exactly one. -/
theorem give_feedback_expected_index (client : Pubkey) (agent_stub_id : Nat)
    (ci : ClientIndexAccount) (rep : AgentReputationMetadata)
    (agent_id score : Nat) (tag1 tag2 : Bytes32) (file_uri : ByteStr)
    (file_hash : Bytes32) (feedback_index : Nat) (now : Int)
    (hscore : score ≤ 100) (huri : file_uri.length ≤ 200)
    (hstub : agent_stub_id = agent_id) (hli : ci.last_index < U64MAX)
    (htf : rep.total_feedbacks < U64MAX)
    (hts : rep.total_score_sum + score ≤ U64MAX) :
    (¬ feedback_index = ci.last_index →
      give_feedback client agent_stub_id ci rep agent_id score tag1 tag2
        file_uri file_hash feedback_index now = .error .InvalidFeedbackIndex) ∧
    (feedback_index = ci.last_index →
      ∃ ci2 fb rep2,
        give_feedback client agent_stub_id ci rep agent_id score tag1 tag2
          file_uri file_hash feedback_index now = .ok (ci2, fb, rep2) ∧
        ci2.last_index = ci.last_index + 1) := by
  constructor
  · intro hne
    by_cases hz : ci.last_index = 0 ∧ ci.agent_id = 0
    · have h0 : ¬ feedback_index = 0 := by rw [hz.1] at hne; exact hne
      simp [give_feedback, FeedbackAccount.MAX_URI_LENGTH, hscore, huri, hstub, hz, h0]
    · simp [give_feedback, FeedbackAccount.MAX_URI_LENGTH, hscore, huri, hstub, hz, hne]
  · intro heq
    by_cases hz : ci.last_index = 0 ∧ ci.agent_id = 0
    · have h0 : feedback_index = 0 := heq.trans hz.1
      obtain ⟨fb, rep2, hrest⟩ := give_feedback_rest_ok client agent_id score
        tag1 tag2 file_uri file_hash feedback_index now
        { ci with agent_id := agent_id, client_address := client } rep hli htf hts
      refine ⟨{ ci with
                agent_id := agent_id
                client_address := client
                last_index := ci.last_index + 1 }, fb, rep2, ?_, rfl⟩
      unfold give_feedback
      rw [if_neg (not_not_intro hscore),
        if_neg (show ¬¬ file_uri.length ≤ FeedbackAccount.MAX_URI_LENGTH from
          not_not_intro huri),
        if_neg (not_not_intro hstub), if_pos hz, if_pos h0]
      exact hrest
    · obtain ⟨fb, rep2, hrest⟩ := give_feedback_rest_ok client agent_id score
        tag1 tag2 file_uri file_hash feedback_index now ci rep hli htf hts
      refine ⟨{ ci with last_index := ci.last_index + 1 }, fb, rep2, ?_, rfl⟩
      unfold give_feedback
      rw [if_neg (not_not_intro hscore),
        if_neg (show ¬¬ file_uri.length ≤ FeedbackAccount.MAX_URI_LENGTH from
          not_not_intro huri),
        if_neg (not_not_intro hstub), if_neg hz, if_pos heq]
      exact hrest

def c2Ci : ClientIndexAccount :=
  { agent_id := 7, client_address := 1, last_index := 2, bump := 0 }

def c2Rep : AgentReputationMetadata :=
  { agent_id := 7, total_feedbacks := 2, total_score_sum := 100,
    average_score := 50, last_updated := 0, bump := 0 }

/-- C2 witness: with `last_index = 2`, submitting index 0 or 3 is rejected
with `InvalidFeedbackIndex`, submitting index 2 succeeds and advances
`last_index` to 3. -/
theorem give_feedback_expected_index_witness :
    give_feedback 1 7 c2Ci c2Rep 7 50 [] [] [] [] 0 3 = .error .InvalidFeedbackIndex ∧
    give_feedback 1 7 c2Ci c2Rep 7 50 [] [] [] [] 3 3 = .error .InvalidFeedbackIndex ∧
    (∃ ci2 fb rep2,
      give_feedback 1 7 c2Ci c2Rep 7 50 [] [] [] [] 2 3 = .ok (ci2, fb, rep2) ∧
      ci2.last_index = 3) := by
  refine ⟨?_, ?_, ?_⟩
  · exact (give_feedback_expected_index 1 7 c2Ci c2Rep 7 50 [] [] [] [] 0 3
      (by decide) (by decide) rfl (by decide) (by decide) (by decide)).1 (by decide)
  · exact (give_feedback_expected_index 1 7 c2Ci c2Rep 7 50 [] [] [] [] 3 3
      (by decide) (by decide) rfl (by decide) (by decide) (by decide)).1 (by decide)
  · obtain ⟨ci2, fb, rep2, h1, h2⟩ :=
      (give_feedback_expected_index 1 7 c2Ci c2Rep 7 50 [] [] [] [] 2 3
        (by decide) (by decide) rfl (by decide) (by decide) (by decide)).2 (by decide)
    exact ⟨ci2, fb, rep2, h1, h2.trans rfl⟩

/-! ## Claim C7: revoke_feedback -/

theorem revoke_feedback_ok_inv (client : Pubkey) (fb : FeedbackAccount)
    (rep : AgentReputationMetadata) (now : Int) (fb2 : FeedbackAccount)
    (rep2 : AgentReputationMetadata)
    (h : revoke_feedback client fb rep now = .ok (fb2, rep2)) :
    fb.client_address = client ∧ fb.is_revoked = false ∧
    fb2 = { fb with is_revoked := true } := by
  unfold revoke_feedback at h
  by_cases hcl : fb.client_address = client
  · by_cases hrv : fb.is_revoked
    · simp [hcl, hrv] at h
    · cases hsub1 : checkedSubU64 rep.total_feedbacks 1 with
      | none => simp [hcl, hrv, hsub1] at h
      | some tf =>
        cases hsub2 : checkedSubU64 rep.total_score_sum fb.score with
        | none => simp [hcl, hrv, hsub1, hsub2] at h
        | some ts =>
          simp only [if_neg (not_not_intro hcl), Bool.not_eq_true] at h
          rw [if_neg (by simp [hrv])] at h
          simp only [hsub1, hsub2, Except.ok.injEq, Prod.mk.injEq] at h
          exact ⟨hcl, by simp [hrv], h.1.symm⟩
  · simp [hcl] at h

theorem revoke_feedback_already_revoked (client : Pubkey) (fb : FeedbackAccount)
    (rep : AgentReputationMetadata) (now : Int)
    (hcl : fb.client_address = client) (hrv : fb.is_revoked = true) :
    revoke_feedback client fb rep now = .error .AlreadyRevoked := by
  simp [revoke_feedback, hcl, hrv]

/-- C7: a successful `revoke_feedback` keeps the record stored under the
same key with only `is_revoked` flipped to true (never deleted), and a
second `revoke_feedback` on the same (agent_id, client, feedback_index)
fails with `AlreadyRevoked` — since the failing transaction aborts, the
aggregates and the record stay as they were; a caller different from the
feedback's original client fails with `Unauthorized`. -/
theorem revoke_feedback_once (s s2 : RepState) (client other : Pubkey)
    (agent_id feedback_index : Nat) (now now2 : Int)
    (fb : FeedbackAccount) (rep : AgentReputationMetadata) :
    (revokeFeedbackStep s client agent_id feedback_index now = .ok s2 →
      (∃ fb0, getAssoc s.feedbacks (agent_id, client, feedback_index) = some fb0 ∧
        getAssoc s2.feedbacks (agent_id, client, feedback_index) =
          some { fb0 with is_revoked := true }) ∧
      revokeFeedbackStep s2 client agent_id feedback_index now2 =
        .error .AlreadyRevoked) ∧
    (¬ fb.client_address = other →
      revoke_feedback other fb rep now = .error .Unauthorized) ∧
    (∀ fb2 rep2, revoke_feedback client fb rep now = .ok (fb2, rep2) →
      fb2 = { fb with is_revoked := true }) := by
  refine ⟨?_, fun h => by simp [revoke_feedback, h], fun fb2 rep2 h =>
    (revoke_feedback_ok_inv client fb rep now fb2 rep2 h).2.2⟩
  intro h
  unfold revokeFeedbackStep at h
  cases hfb : getAssoc s.feedbacks (agent_id, client, feedback_index) with
  | none => simp [hfb] at h
  | some fb0 =>
    cases hrep : getAssoc s.reputations agent_id with
    | none => simp [hfb, hrep] at h
    | some rep0 =>
      cases hbody : revoke_feedback client fb0 rep0 now with
      | error e => simp [hfb, hrep, hbody] at h
      | ok pr =>
        obtain ⟨fb2, rep2⟩ := pr
        simp only [hfb, hrep, hbody, Except.ok.injEq] at h
        obtain ⟨hcl, hrv, hfb2⟩ := revoke_feedback_ok_inv client fb0 rep0 now fb2 rep2 hbody
        subst h
        constructor
        · exact ⟨fb0, rfl, by rw [← hfb2]; exact getAssoc_setAssoc_same _ _ _⟩
        · unfold revokeFeedbackStep
          rw [show getAssoc (setAssoc s.feedbacks (agent_id, client, feedback_index) fb2)
                (agent_id, client, feedback_index) = some fb2 from
              getAssoc_setAssoc_same _ _ _]
          rw [show getAssoc (setAssoc s.reputations agent_id rep2) agent_id = some rep2 from
              getAssoc_setAssoc_same _ _ _]
          simp only [revoke_feedback_already_revoked client fb2 rep2 now2
            (by rw [hfb2]; exact hcl) (by rw [hfb2])]

def c7Fb : FeedbackAccount :=
  { agent_id := 5, client_address := 1, feedback_index := 0, score := 40,
    tag1 := [], tag2 := [], file_uri := [], file_hash := [],
    is_revoked := false, created_at := 0, bump := 0 }

def c7Rep : AgentReputationMetadata :=
  { agent_id := 5, total_feedbacks := 1, total_score_sum := 40,
    average_score := 40, last_updated := 0, bump := 0 }

def c7S : RepState :=
  { client_indexes := [((5, 1),
      { agent_id := 5, client_address := 1, last_index := 1, bump := 0 })],
    feedbacks := [((5, 1, 0), c7Fb)],
    reputations := [(5, c7Rep)] }

def c7S2 : RepState :=
  { c7S with
    feedbacks := [((5, 1, 0), { c7Fb with is_revoked := true })],
    reputations := [(5,
      { c7Rep with
        total_feedbacks := 0
        total_score_sum := 0
        average_score := 0
        last_updated := 3 })] }

/-- C7 witness: a concrete first revoke succeeds and the theorem then gives
`AlreadyRevoked` for the second one; a foreign caller gets `Unauthorized`. -/
theorem revoke_feedback_once_witness :
    revokeFeedbackStep c7S2 1 5 0 4 = .error .AlreadyRevoked ∧
    revoke_feedback 2 c7Fb c7Rep 3 = .error .Unauthorized := by
  have h := revoke_feedback_once c7S c7S2 1 2 5 0 3 4 c7Fb c7Rep
  exact ⟨(h.1 (by rfl)).2, h.2.1 (by decide)⟩

/-! ## Claim C4: sequential agent ids -/

theorem register_internal_ok_inv (config : RegistryConfig)
    (owner agent_mint : Pubkey) (token_uri : ByteStr)
    (metadata : List MetadataEntry) (now : Int) (c2 : RegistryConfig)
    (agent : AgentAccount)
    (h : register_internal config owner agent_mint token_uri metadata now =
      .ok (c2, agent)) :
    agent.agent_id = config.next_agent_id ∧
    c2.next_agent_id = config.next_agent_id + 1 ∧
    c2.total_agents = config.total_agents + 1 := by
  unfold register_internal at h
  by_cases h1 : token_uri.length ≤ AgentAccount.MAX_URI_LENGTH
  · by_cases h2 : metadata.length ≤ AgentAccount.MAX_METADATA_ENTRIES
    · cases hv : validateEntries metadata with
      | error e => simp [h1, h2, hv] at h
      | ok u =>
        cases hna : checkedAddU64 config.next_agent_id 1 with
        | none => simp [h1, h2, hv, hna] at h
        | some na =>
          cases hta : checkedAddU64 config.total_agents 1 with
          | none => simp [h1, h2, hv, hna, hta] at h
          | some ta =>
            simp only [if_neg (not_not_intro h1), if_neg (not_not_intro h2),
              hv, hna, hta, Except.ok.injEq, Prod.mk.injEq] at h
            obtain ⟨hc, ha⟩ := h
            rw [← hc, ← ha]
            exact ⟨rfl, checkedAddU64_some_inv _ _ _ hna,
              checkedAddU64_some_inv _ _ _ hta⟩
    · simp [h1, h2] at h
  · simp [h1] at h

theorem applyReg_ok_inv (config : RegistryConfig) (r : RegReq)
    (c2 : RegistryConfig) (agent : AgentAccount)
    (h : applyReg config r = .ok (c2, agent)) :
    agent.agent_id = config.next_agent_id ∧
    c2.next_agent_id = config.next_agent_id + 1 ∧
    c2.total_agents = config.total_agents + 1 := by
  cases r with
  | empty o m n => exact register_internal_ok_inv config o m [] [] n c2 agent h
  | withUri o m u n => exact register_internal_ok_inv config o m u [] n c2 agent h
  | withMeta o m u md n => exact register_internal_ok_inv config o m u md n c2 agent h

theorem runRegisters_ids (reqs : List RegReq) :
    ∀ (config c3 : RegistryConfig) (ids : List Nat),
      runRegisters config reqs = some (c3, ids) →
      ids = (List.range reqs.length).map (fun i => config.next_agent_id + i) ∧
      c3.next_agent_id = config.next_agent_id + reqs.length ∧
      c3.total_agents = config.total_agents + reqs.length := by
  induction reqs with
  | nil =>
    intro config c3 ids h
    simp only [runRegisters, Option.some.injEq, Prod.mk.injEq] at h
    obtain ⟨hc, hi⟩ := h
    rw [← hc, ← hi]
    simp
  | cons r rs ih =>
    intro config c3 ids h
    unfold runRegisters at h
    cases ha : applyReg config r with
    | error e => simp [ha] at h
    | ok pr =>
      obtain ⟨cm, agent⟩ := pr
      cases hrun : runRegisters cm rs with
      | none => simp [ha, hrun] at h
      | some pr2 =>
        obtain ⟨cf, ids2⟩ := pr2
        simp only [ha, hrun, Option.some.injEq, Prod.mk.injEq] at h
        obtain ⟨hc, hi⟩ := h
        obtain ⟨hid, hnext, htotal⟩ := applyReg_ok_inv config r cm agent ha
        obtain ⟨hids2, hnext2, htotal2⟩ := ih cm cf ids2 hrun
        subst hc
        refine ⟨?_, by simp [List.length_cons]; omega, by simp [List.length_cons]; omega⟩
        rw [← hi, hids2, hid, hnext, List.length_cons, List.range_succ_eq_map,
          List.map_cons, List.map_map]
        refine congrArg₂ List.cons (by omega) (List.map_congr_left ?_)
        intro i hi2
        simp [Function.comp]
        omega

/-- C4: every sequence of successful register calls (any mix of `register`,
`register_empty`, `register_with_metadata`) from the freshly created config
assigns the agent ids 0, 1, 2, ... in call order (strictly increasing,
never reused) and leaves both counters at the number of registrations;
each single call assigns `config.next_agent_id` and bumps both counters by
one; when either counter sits at `u64::MAX` the call fails with `Overflow`
instead of wrapping. -/
theorem register_sequential_ids (reqs : List RegReq)
    (authority collection_mint : Pubkey) (c3 : RegistryConfig)
    (ids : List Nat) (config : RegistryConfig) (owner agent_mint : Pubkey)
    (token_uri : ByteStr) (metadata : List MetadataEntry) (now : Int)
    (huri : token_uri.length ≤ 200) (hmd : metadata.length ≤ 10)
    (hval : validateEntries metadata = .ok ())
    (hcn : config.next_agent_id ≤ U64MAX) (hct : config.total_agents ≤ U64MAX) :
    (runRegisters (initRegistryConfig authority collection_mint) reqs =
        some (c3, ids) →
      ids = List.range reqs.length ∧ c3.next_agent_id = reqs.length ∧
      c3.total_agents = reqs.length) ∧
    (∀ c2 agent,
      register_internal config owner agent_mint token_uri metadata now =
        .ok (c2, agent) →
      agent.agent_id = config.next_agent_id ∧
      c2.next_agent_id = config.next_agent_id + 1 ∧
      c2.total_agents = config.total_agents + 1) ∧
    (config.next_agent_id = U64MAX ∨ config.total_agents = U64MAX →
      register_internal config owner agent_mint token_uri metadata now =
        .error .Overflow) := by
  refine ⟨?_, fun c2 agent h =>
    register_internal_ok_inv config owner agent_mint token_uri metadata now
      c2 agent h, ?_⟩
  · intro h
    obtain ⟨hids, hnext, htotal⟩ := runRegisters_ids reqs
      (initRegistryConfig authority collection_mint) c3 ids h
    refine ⟨by rw [hids]; simp [initRegistryConfig], ?_, ?_⟩
    · rw [hnext]; simp [initRegistryConfig]
    · rw [htotal]; simp [initRegistryConfig]
  · intro hov
    unfold register_internal
    rw [if_neg (show ¬¬ token_uri.length ≤ AgentAccount.MAX_URI_LENGTH from
        not_not_intro huri),
      if_neg (show ¬¬ metadata.length ≤ AgentAccount.MAX_METADATA_ENTRIES from
        not_not_intro hmd),
      hval]
    rcases hov with hcase | hcase
    · have : checkedAddU64 config.next_agent_id 1 = none := by
        unfold checkedAddU64
        rw [if_neg (by omega)]
      rw [this]
    · by_cases h2 : config.next_agent_id = U64MAX
      · have : checkedAddU64 config.next_agent_id 1 = none := by
          unfold checkedAddU64
          rw [if_neg (by omega)]
        rw [this]
      · rw [checkedAddU64_some config.next_agent_id 1 (by omega)]
        have : checkedAddU64 config.total_agents 1 = none := by
          unfold checkedAddU64
          rw [if_neg (by omega)]
        rw [this]

def c4Reqs : List RegReq :=
  [RegReq.empty 1 11 0, RegReq.withUri 2 12 [1] 0,
   RegReq.withMeta 3 13 [] [{ key := [1], value := [2] }] 0]

def c4Final : RegistryConfig :=
  { authority := 1, next_agent_id := 3, total_agents := 3,
    collection_mint := 2, bump := 0 }

def c4MaxConfig : RegistryConfig :=
  { authority := 0, next_agent_id := U64MAX, total_agents := 0,
    collection_mint := 0, bump := 0 }

/-- C4 witness: a concrete run of the three register entry points yields
ids 0, 1, 2 and both counters at 3; a config whose counter sits at
`u64::MAX` makes `register_internal` fail with `Overflow`. -/
theorem register_sequential_ids_witness :
    runRegisters (initRegistryConfig 1 2) c4Reqs = some (c4Final, [0, 1, 2]) ∧
    ([0, 1, 2] : List Nat) = List.range 3 ∧
    register_internal c4MaxConfig 1 11 [] [] 0 = .error .Overflow := by
  have h := register_sequential_ids c4Reqs 1 2 c4Final [0, 1, 2] c4MaxConfig
    1 11 [] [] 0 (by decide) (by decide) rfl (by decide) (by decide)
  exact ⟨rfl, (h.1 rfl).1, h.2.2 (Or.inl rfl)⟩

/-! ## Claim C3: respond_to_validation / update_validation -/

/-- C3: starting from a request in the state `request_validation` creates
(`response = 0`, `responded_at = 0`), a successful `respond_to_validation`
at a positive timestamp sets `responded_at` to that positive timestamp and
increments `total_responses` by exactly one; the subsequent call on the
same (now responded) request updates `response`, `response_hash` and
`responded_at` but returns the config unchanged (so `total_responses`
stays); more generally no call on a request with nonzero `responded_at`
changes `total_responses`; and `update_validation` is the very same
function as `respond_to_validation`. -/
theorem respond_to_validation_update (cfg : ValidationConfig)
    (validator : Pubkey) (vr : ValidationRequest) (r : Nat) (u : ByteStr)
    (rh t : Bytes32) (n : Int) (hval : vr.validator_address = validator)
    (hr : r ≤ 100) (hu : u.length ≤ 200) (hpend : ¬ vr.responded_at = 0) :
    respond_to_validation cfg validator vr r u rh t n =
      .ok (cfg, { vr with response := r, response_hash := rh, responded_at := n }) := by
  unfold respond_to_validation
  rw [if_neg (not_not_intro hval), if_neg (not_not_intro hr),
    if_neg (show ¬¬ u.length ≤ ValidationRequest.MAX_URI_LENGTH from
      not_not_intro hu),
    if_neg hpend]

theorem respond_to_validation_counter (cfg : ValidationConfig)
    (validator : Pubkey) (vr : ValidationRequest) (r1 r2 : Nat)
    (u1 u2 : ByteStr) (rh1 rh2 t1 t2 : Bytes32) (now1 now2 : Int)
    (hval : vr.validator_address = validator) (hr1 : r1 ≤ 100)
    (hu1 : u1.length ≤ 200) (hr2 : r2 ≤ 100) (hu2 : u2.length ≤ 200)
    (hresp0 : vr.response = 0) (hpend : vr.responded_at = 0)
    (hnow1 : 0 < now1) (htr : cfg.total_responses < U64MAX) :
    (respond_to_validation cfg validator vr r1 u1 rh1 t1 now1 =
      .ok ({ cfg with total_responses := cfg.total_responses + 1 },
        { vr with response := r1, response_hash := rh1, responded_at := now1 }) ∧
     0 < ({ vr with response := r1, response_hash := rh1, responded_at := now1 } :
        ValidationRequest).responded_at ∧
     respond_to_validation { cfg with total_responses := cfg.total_responses + 1 }
        validator { vr with response := r1, response_hash := rh1, responded_at := now1 }
        r2 u2 rh2 t2 now2 =
      .ok ({ cfg with total_responses := cfg.total_responses + 1 },
        { vr with response := r2, response_hash := rh2, responded_at := now2 })) ∧
    (∀ cfgA vrA cfgB vrB,
      ¬ vrA.responded_at = 0 →
      respond_to_validation cfgA validator vrA r2 u2 rh2 t2 now2 = .ok (cfgB, vrB) →
      cfgB.total_responses = cfgA.total_responses ∧ vrB.response = r2 ∧
      vrB.response_hash = rh2 ∧ vrB.responded_at = now2) ∧
    (∀ (cfgA : ValidationConfig) (vrA : ValidationRequest) (r : Nat)
        (u : ByteStr) (rh t : Bytes32) (n : Int),
      update_validation cfgA validator vrA r u rh t n =
        respond_to_validation cfgA validator vrA r u rh t n) := by
  refine ⟨⟨?_, by simpa using hnow1, ?_⟩, ?_, fun cfgA vrA r u rh t n => rfl⟩
  · unfold respond_to_validation
    rw [if_neg (not_not_intro hval), if_neg (not_not_intro hr1),
      if_neg (show ¬¬ u1.length ≤ ValidationRequest.MAX_URI_LENGTH from
        not_not_intro hu1),
      if_pos hpend, checkedAddU64_some cfg.total_responses 1 (by omega)]
  · exact respond_to_validation_update
      { cfg with total_responses := cfg.total_responses + 1 } validator
      { vr with response := r1, response_hash := rh1, responded_at := now1 }
      r2 u2 rh2 t2 now2 hval hr2 hu2 (by omega : ¬ now1 = 0)
  · intro cfgA vrA cfgB vrB hA h
    unfold respond_to_validation at h
    by_cases hv : vrA.validator_address = validator
    · simp only [if_neg (not_not_intro hv)] at h
      by_cases hr : r2 ≤ 100
      · simp only [if_neg (not_not_intro hr)] at h
        by_cases hu : u2.length ≤ ValidationRequest.MAX_URI_LENGTH
        · simp only [if_neg (not_not_intro hu), if_neg hA,
            Except.ok.injEq, Prod.mk.injEq] at h
          obtain ⟨hcfg, hvr⟩ := h
          rw [← hcfg, ← hvr]
          exact ⟨rfl, rfl, rfl, rfl⟩
        · simp [hu] at h
      · simp [hr] at h
    · simp [hv] at h

def c3Cfg : ValidationConfig :=
  { authority := 0, identity_registry := 2, total_requests := 1,
    total_responses := 0, bump := 0 }

def c3Vr : ValidationRequest :=
  { agent_id := 7, validator_address := 3, nonce := 1, request_hash := [],
    response_hash := List.replicate 32 0, response := 0, created_at := 1,
    responded_at := 0, bump := 0 }

/-- C3 witness: a concrete first response bumps `total_responses` from 0 to
1 and sets a positive `responded_at`; the follow-up update changes the
response fields and leaves `total_responses` at 1. -/
theorem respond_to_validation_counter_witness :
    respond_to_validation c3Cfg 3 c3Vr 80 [] [7] [] 5 =
      .ok ({ c3Cfg with total_responses := c3Cfg.total_responses + 1 },
        { c3Vr with response := 80, response_hash := [7], responded_at := 5 }) ∧
    (0 : Int) < 5 ∧
    respond_to_validation { c3Cfg with total_responses := c3Cfg.total_responses + 1 }
      3 { c3Vr with response := 80, response_hash := [7], responded_at := 5 }
      60 [] [8] [] 6 =
      .ok ({ c3Cfg with total_responses := c3Cfg.total_responses + 1 },
        { c3Vr with response := 60, response_hash := [8], responded_at := 6 }) := by
  have h := respond_to_validation_counter c3Cfg 3 c3Vr 80 60 [] [] [7] [8] [] []
    5 6 rfl (by decide) (by decide) (by decide) (by decide) rfl rfl
    (by decide) (by decide)
  exact ⟨h.1.1, by decide, h.1.2.2⟩

/-! ## Claim C6: request_validation authorization -/

/-- C6: with a well-formed raw agent account (at least 48 bytes) owned by
the identity-registry program, `request_validation` fails with
`AgentNotFound` when the stored agent id (bytes 8..16) differs from the
requested one, fails with `UnauthorizedRequester` when the stored owner
(bytes 16..48 — after the 8-byte discriminator and the 8-byte agent id)
differs from the requester, and otherwise succeeds, creating the
`ValidationRequest` carrying (agent_id, validator_address, nonce) with
`response = 0` and `responded_at = 0` and incrementing `total_requests` by
one (checked); any success implies the requester equals the stored owner. -/
theorem request_validation_owner_auth (cfg : ValidationConfig)
    (requester agent_owner_program : Pubkey) (agent_data : List Nat)
    (agent_id : Nat) (validator_address : Pubkey) (nonce : Nat)
    (request_uri : ByteStr) (request_hash : Bytes32) (now : Int)
    (hprog : agent_owner_program = cfg.identity_registry)
    (huri : request_uri.length ≤ 200) (hlen : 48 ≤ agent_data.length) :
    (¬ storedAgentId agent_data = agent_id →
      request_validation cfg requester agent_owner_program agent_data agent_id
        validator_address nonce request_uri request_hash now =
        .error .AgentNotFound) ∧
    (storedAgentId agent_data = agent_id →
      ¬ leBytesToNat (storedOwnerBytes agent_data) = requester →
      request_validation cfg requester agent_owner_program agent_data agent_id
        validator_address nonce request_uri request_hash now =
        .error .UnauthorizedRequester) ∧
    (storedAgentId agent_data = agent_id →
      leBytesToNat (storedOwnerBytes agent_data) = requester →
      cfg.total_requests < U64MAX →
      request_validation cfg requester agent_owner_program agent_data agent_id
        validator_address nonce request_uri request_hash now =
        .ok ({ cfg with total_requests := cfg.total_requests + 1 },
          { agent_id := agent_id, validator_address := validator_address,
            nonce := nonce, request_hash := request_hash,
            response_hash := List.replicate 32 0, response := 0,
            created_at := now, responded_at := 0, bump := 0 })) ∧
    (∀ out,
      request_validation cfg requester agent_owner_program agent_data agent_id
        validator_address nonce request_uri request_hash now = .ok out →
      leBytesToNat (storedOwnerBytes agent_data) = requester) := by
  have hlen8 : ((agent_data.drop 8).take 8).length = 8 := by
    simp [List.length_take, List.length_drop]
    omega
  have hlen32 : (storedOwnerBytes agent_data).length = 32 := by
    simp [storedOwnerBytes, List.length_take, List.length_drop]
    omega
  have hpk : pubkeyTryFrom (storedOwnerBytes agent_data) =
      some (leBytesToNat (storedOwnerBytes agent_data)) := by
    simp [pubkeyTryFrom, hlen32]
  refine ⟨fun hid => ?_, fun hid hown => ?_, fun hid hown htr => ?_, fun out hok => ?_⟩
  · simp [request_validation, ValidationRequest.MAX_URI_LENGTH, hprog, huri,
      hlen, hlen8, hpk, hid]
  · simp [request_validation, ValidationRequest.MAX_URI_LENGTH, hprog, huri,
      hlen, hlen8, hpk, hid, hown]
  · simp [request_validation, ValidationRequest.MAX_URI_LENGTH, hprog, huri,
      hlen, hlen8, hpk, hid, hown,
      checkedAddU64_some cfg.total_requests 1 (by omega)]
  · by_cases hid : storedAgentId agent_data = agent_id
    · by_cases hown : leBytesToNat (storedOwnerBytes agent_data) = requester
      · exact hown
      · rw [(by
          simp [request_validation, ValidationRequest.MAX_URI_LENGTH, hprog,
            huri, hlen, hlen8, hpk, hid, hown] :
          request_validation cfg requester agent_owner_program agent_data
            agent_id validator_address nonce request_uri request_hash now =
            .error .UnauthorizedRequester)] at hok
        exact absurd hok (by simp)
    · rw [(by
        simp [request_validation, ValidationRequest.MAX_URI_LENGTH, hprog,
          huri, hlen, hlen8, hpk, hid] :
        request_validation cfg requester agent_owner_program agent_data
          agent_id validator_address nonce request_uri request_hash now =
          .error .AgentNotFound)] at hok
      exact absurd hok (by simp)

def c6Data : List Nat :=
  List.replicate 8 0 ++ (7 :: List.replicate 7 0) ++ (9 :: List.replicate 31 0)

def c6Cfg : ValidationConfig :=
  { authority := 0, identity_registry := 2, total_requests := 0,
    total_responses := 0, bump := 0 }

/-- C6 witness: on a concrete 48-byte agent record storing agent id 7 and
owner 9, the owner succeeds (counter moves to 1, pending request created),
a stranger gets `UnauthorizedRequester`, a wrong agent id gets
`AgentNotFound`. -/
theorem request_validation_owner_auth_witness :
    request_validation c6Cfg 9 2 c6Data 7 4 1 [] [] 0 =
      .ok ({ c6Cfg with total_requests := c6Cfg.total_requests + 1 },
        { agent_id := 7, validator_address := 4, nonce := 1, request_hash := [],
          response_hash := List.replicate 32 0, response := 0, created_at := 0,
          responded_at := 0, bump := 0 }) ∧
    request_validation c6Cfg 5 2 c6Data 7 4 1 [] [] 0 =
      .error .UnauthorizedRequester ∧
    request_validation c6Cfg 9 2 c6Data 8 4 1 [] [] 0 = .error .AgentNotFound := by
  refine ⟨?_, ?_, ?_⟩
  · exact (request_validation_owner_auth c6Cfg 9 2 c6Data 7 4 1 [] [] 0 rfl
      (by decide) (by decide)).2.2.1 (by decide) (by decide) (by decide)
  · exact (request_validation_owner_auth c6Cfg 5 2 c6Data 7 4 1 [] [] 0 rfl
      (by decide) (by decide)).2.1 (by decide) (by decide)
  · exact (request_validation_owner_auth c6Cfg 9 2 c6Data 8 4 1 [] [] 0 rfl
      (by decide) (by decide)).1 (by decide)

/-! ## Claim C1: aggregate invariant -/

/-- Two successful `give_feedback` transactions from client 1 for the agent
whose `agent_id` is 0 (scores 50 at index 0 and 70 at index 1). -/
def c1Trace : Except ReputationError RepState :=
  match giveFeedbackStep RepState.empty 1 0 0 50 [] [] [] [] 0 1 with
  | .error e => .error e
  | .ok s1 => giveFeedbackStep s1 1 0 0 70 [] [] [] [] 1 2

/-- Final state of `c1Trace` (the trace does succeed). -/
def c1Final : RepState := c1Trace.toOption.getD RepState.empty

/-- C1: the aggregate invariant is broken by the code for the agent with
`agent_id = 0` (a real agent: the identity registry assigns ids starting
at 0): `give_feedback` treats a stored `agent_reputation.agent_id` of 0 as
"uninitialised" and re-initialises the aggregates on every feedback, so
after two successful feedbacks for agent 0 the state holds 2 non-revoked
records summing to 120 while the aggregate claims `total_feedbacks = 1`,
`total_score_sum = 70`, `average_score = 70` instead of 2 / 120 / 60. -/
theorem give_feedback_agent_zero_breaks_aggregates :
    c1Trace.toOption.isSome = true ∧
    nonRevokedCount c1Final 0 = 2 ∧
    nonRevokedScoreSum c1Final 0 = 120 ∧
    (getAssoc c1Final.reputations 0).map
      (fun r => (r.total_feedbacks, r.total_score_sum, r.average_score)) =
      some (1, 70, 70) := by
  refine ⟨rfl, rfl, rfl, rfl⟩
